import Mathlib

/-!
Verification of the entropy/probability library and optimization formulations
of the subset-sum optimization repository.

Conventions of the embedding:
* Python floats are modelled as real numbers.
* Functions that cannot raise are embedded as plain real-valued functions
  mirroring the source expression.
* For each library function we additionally give an exception-aware embedding
  (suffix `E`, returning `Option ℝ`) in which `none` models a raised Python
  exception.  The only primitive operations of the library that can raise are
  `math.log` (ValueError on a non-positive argument) and float division
  (ZeroDivisionError on a zero divisor); these are modelled by `pylog` and
  `pydiv` below.  The exception-aware embeddings call them exactly where the
  source does.
-/

noncomputable section

/-- Model of Python `log(x, 2)`: defined (as `log2 x`) only for `0 < x`;
`math.log` raises `ValueError` on a non-positive argument, modelled by `none`. -/
def pylog (x : ℝ) : Option ℝ :=
  if 0 < x then some (Real.logb 2 x) else none

/-- Model of Python float division `x / y`: raises `ZeroDivisionError` when
the divisor is zero, modelled by `none`. -/
def pydiv (x y : ℝ) : Option ℝ :=
  if y = 0 then none else some (x / y)

theorem pylog_pos {x : ℝ} (hx : 0 < x) : pylog x = some (Real.logb 2 x) := by
  simp [pylog, hx]

theorem pydiv_ne {x y : ℝ} (hy : y ≠ 0) : pydiv x y = some (x / y) := by
  simp [pydiv, hy]

/-! ## macros.py -/

namespace macros

/-- Value-level embedding of `xlx` from macros.py: returns `-100*x` for
`x ≤ 0` and `x*log(x,2)` otherwise (the steep-penalty boundary policy). -/
def xlx (x : ℝ) : ℝ :=
  if x ≤ 0 then -100 * x else x * Real.logb 2 x

/-- Exception-aware embedding of `xlx` from macros.py.  The source is
`if x<=0: return - 100*x` then `return x*log(x, 2)`. -/
def xlxE (x : ℝ) : Option ℝ :=
  if x ≤ 0 then some (-100 * x) else (pylog x).map (fun l => x * l)

theorem xlxE_eq (x : ℝ) : xlxE x = some (xlx x) := by
  by_cases h : x ≤ 0
  · simp [xlxE, xlx, h]
  · have hx : 0 < x := lt_of_not_le h
    simp [xlxE, xlx, h, pylog_pos hx]

/-- Value-level embedding of `g` from macros.py:
`-xlx(a) - xlx(b) - xlx(1-a-b)`. -/
def g (a b : ℝ) : ℝ :=
  -xlx a - xlx b - xlx (1 - a - b)

/-- Exception-aware embedding of `g` from macros.py. -/
def gE (a b : ℝ) : Option ℝ := do
  let u ← xlxE a
  let v ← xlxE b
  let w ← xlxE (1 - a - b)
  pure (-u - v - w)

theorem gE_eq (a b : ℝ) : gE a b = some (g a b) := by
  simp [gE, g, xlxE_eq]

/-- Value-level embedding of `f` from macros.py:
`-xlx(a) - xlx(b) - xlx(c) - xlx(1-a-b-c)`. -/
def f (a b c : ℝ) : ℝ :=
  -xlx a - xlx b - xlx c - xlx (1 - a - b - c)

/-- Exception-aware embedding of `f` from macros.py. -/
def fE (a b c : ℝ) : Option ℝ := do
  let u ← xlxE a
  let v ← xlxE b
  let w ← xlxE c
  let z ← xlxE (1 - a - b - c)
  pure (-u - v - w - z)

theorem fE_eq (a b c : ℝ) : fE a b c = some (f a b c) := by
  simp [fE, f, xlxE_eq]

/-- Value-level embedding of `p_good` from macros.py. -/
def p_good (a0 b0 a1 b1 : ℝ) : ℝ :=
  -2 * xlx (a0 / 2) - 2 * xlx (b0 / 2) - xlx (a1 - a0 / 2) - xlx (b1 - b0 / 2)
    - xlx (1 - a1 - b1 - a0 / 2 - b0 / 2) - 2 * g a1 b1

/-- Exception-aware embedding of `p_good` from macros.py. -/
def p_goodE (a0 b0 a1 b1 : ℝ) : Option ℝ := do
  let t1 ← xlxE (a0 / 2)
  let t2 ← xlxE (b0 / 2)
  let t3 ← xlxE (a1 - a0 / 2)
  let t4 ← xlxE (b1 - b0 / 2)
  let t5 ← xlxE (1 - a1 - b1 - a0 / 2 - b0 / 2)
  let t6 ← gE a1 b1
  pure (-2 * t1 - 2 * t2 - t3 - t4 - t5 - 2 * t6)

theorem p_goodE_eq (a0 b0 a1 b1 : ℝ) : p_goodE a0 b0 a1 b1 = some (p_good a0 b0 a1 b1) := by
  simp [p_goodE, p_good, xlxE_eq, gE_eq]

/-- Value-level embedding of `p_good_2_down` from macros.py:
`-( 2*xlx(a1-c1) + xlx(1-2*c1-2*b1) + 2*xlx(c1) + 2*xlx(b0/2-c1) ) - 2*f(a1, b1, c1)`. -/
def p_good_2_down (b0 _a0 _c0 _b1 a1 c1 : ℝ) : ℝ :=
  -(2 * xlx (a1 - c1) + xlx (1 - 2 * c1 - 2 * _b1) + 2 * xlx c1 + 2 * xlx (b0 / 2 - c1))
    - 2 * f a1 _b1 c1

/-- Exception-aware embedding of `p_good_2_down` from macros.py. -/
def p_good_2_downE (b0 _a0 _c0 _b1 a1 c1 : ℝ) : Option ℝ := do
  let t1 ← xlxE (a1 - c1)
  let t2 ← xlxE (1 - 2 * c1 - 2 * _b1)
  let t3 ← xlxE c1
  let t4 ← xlxE (b0 / 2 - c1)
  let t5 ← fE a1 _b1 c1
  pure (-(2 * t1 + t2 + 2 * t3 + 2 * t4) - 2 * t5)

theorem p_good_2_downE_eq (b0 a0 c0 b1 a1 c1 : ℝ) :
    p_good_2_downE b0 a0 c0 b1 a1 c1 = some (p_good_2_down b0 a0 c0 b1 a1 c1) := by
  simp [p_good_2_downE, p_good_2_down, xlxE_eq, fE_eq]

/-- Value-level embedding of `p_good_2_up` from macros.py:
`-( 2*xlx(a0/2) + 2*xlx(a1-a0/2) + xlx(1-b0-c0-2*a1) + 2*xlx(b0/2) + xlx(c0) ) - 2*f(b1, a1, c1)`. -/
def p_good_2_up (b0 a0 c0 b1 a1 c1 : ℝ) : ℝ :=
  -(2 * xlx (a0 / 2) + 2 * xlx (a1 - a0 / 2) + xlx (1 - b0 - c0 - 2 * a1)
      + 2 * xlx (b0 / 2) + xlx c0)
    - 2 * f b1 a1 c1

/-- Exception-aware embedding of `p_good_2_up` from macros.py. -/
def p_good_2_upE (b0 a0 c0 b1 a1 c1 : ℝ) : Option ℝ := do
  let t1 ← xlxE (a0 / 2)
  let t2 ← xlxE (a1 - a0 / 2)
  let t3 ← xlxE (1 - b0 - c0 - 2 * a1)
  let t4 ← xlxE (b0 / 2)
  let t5 ← xlxE c0
  let t6 ← fE b1 a1 c1
  pure (-(2 * t1 + 2 * t2 + t3 + 2 * t4 + t5) - 2 * t6)

theorem p_good_2_upE_eq (b0 a0 c0 b1 a1 c1 : ℝ) :
    p_good_2_upE b0 a0 c0 b1 a1 c1 = some (p_good_2_up b0 a0 c0 b1 a1 c1) := by
  simp [p_good_2_upE, p_good_2_up, xlxE_eq, fE_eq]

end macros

/-! ## classical.py -/

namespace classicalpy

/-- Value-level embedding of `xlx` from classical.py: returns `0` for `x ≤ 0`
and `x*log(x,2)` otherwise. -/
def xlx (x : ℝ) : ℝ :=
  if x ≤ 0 then 0 else x * Real.logb 2 x

/-- Exception-aware embedding of `xlx` from classical.py.  The source is
`if x<=0: return 0` then `return x*log(x, 2)`. -/
def xlxE (x : ℝ) : Option ℝ :=
  if x ≤ 0 then some 0 else (pylog x).map (fun l => x * l)

theorem xlxE_eq_cl (x : ℝ) : xlxE x = some (xlx x) := by
  by_cases h : x ≤ 0
  · simp [xlxE, xlx, h]
  · have hx : 0 < x := lt_of_not_le h
    simp [xlxE, xlx, h, pylog_pos hx]

/-- Value-level embedding of `g` from classical.py. -/
def g (a b : ℝ) : ℝ :=
  -xlx a - xlx b - xlx (1 - a - b)

/-- Exception-aware embedding of `g` from classical.py. -/
def gE (a b : ℝ) : Option ℝ := do
  let u ← xlxE a
  let v ← xlxE b
  let w ← xlxE (1 - a - b)
  pure (-u - v - w)

theorem gE_eq_cl (a b : ℝ) : gE a b = some (g a b) := by
  simp [gE, g, xlxE_eq_cl]

/-- Value-level embedding of `p_good` from classical.py (same expression as
the macros.py `p_good` but built on the classical.py `xlx` policy). -/
def p_good (a0 b0 a1 b1 : ℝ) : ℝ :=
  -2 * xlx (a0 / 2) - 2 * xlx (b0 / 2) - xlx (a1 - a0 / 2) - xlx (b1 - b0 / 2)
    - xlx (1 - a1 - b1 - a0 / 2 - b0 / 2) - 2 * g a1 b1

/-- Exception-aware embedding of `p_good` from classical.py. -/
def p_goodE (a0 b0 a1 b1 : ℝ) : Option ℝ := do
  let t1 ← xlxE (a0 / 2)
  let t2 ← xlxE (b0 / 2)
  let t3 ← xlxE (a1 - a0 / 2)
  let t4 ← xlxE (b1 - b0 / 2)
  let t5 ← xlxE (1 - a1 - b1 - a0 / 2 - b0 / 2)
  let t6 ← gE a1 b1
  pure (-2 * t1 - 2 * t2 - t3 - t4 - t5 - 2 * t6)

theorem p_goodE_eq_cl (a0 b0 a1 b1 : ℝ) : p_goodE a0 b0 a1 b1 = some (p_good a0 b0 a1 b1) := by
  simp [p_goodE, p_good, xlxE_eq_cl, gE_eq_cl]

/-- Value-level embedding of `f` from classical.py, reproducing the fallback
ladder of the source in order: `a ≤ 0`, `b ≤ 0`, `c ≤ 0`, `a+b+c ≥ 1`, and
finally the full 4-way entropy.  In exact real arithmetic the logarithm
arguments of the final branch are all positive, so the `try/except` of the
source (which returns `0` on a numerical failure) cannot fire; the
exception-aware embedding `fE` below models it faithfully. -/
def f (a b c : ℝ) : ℝ :=
  if a ≤ 0 then g b c
  else if b ≤ 0 then g a c
  else if c ≤ 0 then g a b
  else if a + b + c ≥ 1 then min (g b c) (min (g a c) (g a b))
  else
    -a * Real.logb 2 a - b * Real.logb 2 b - c * Real.logb 2 c
      - (1 - a - b - c) * Real.logb 2 (1 - a - b - c)

/-- Exception-aware embedding of `f` from classical.py.  The final branch
wraps the 4-way entropy evaluation in the `try/except` of the source: if any
logarithm raises, the result is `0`. -/
def fE (a b c : ℝ) : Option ℝ :=
  if a ≤ 0 then gE b c
  else if b ≤ 0 then gE a c
  else if c ≤ 0 then gE a b
  else if a + b + c ≥ 1 then do
    let u ← gE b c
    let v ← gE a c
    let w ← gE a b
    pure (min u (min v w))
  else
    some ((do
      let la ← pylog a
      let lb ← pylog b
      let lc ← pylog c
      let ld ← pylog (1 - a - b - c)
      pure (-a * la - b * lb - c * lc - (1 - a - b - c) * ld) : Option ℝ).getD 0)

theorem fE_eq_cl (a b c : ℝ) : fE a b c = some (f a b c) := by
  unfold fE f
  split_ifs with h1 h2 h3 h4
  · exact gE_eq_cl b c
  · exact gE_eq_cl a c
  · exact gE_eq_cl a b
  · simp [gE_eq_cl]
  · have ha : 0 < a := lt_of_not_le h1
    have hb : 0 < b := lt_of_not_le h2
    have hc : 0 < c := lt_of_not_le h3
    have hd : 0 < 1 - a - b - c := by
      rw [ge_iff_le, not_le] at h4
      linarith
    simp [pylog_pos ha, pylog_pos hb, pylog_pos hc, pylog_pos hd]

/-- Lower bound of the one-dimensional search interval computed in
`p_good_2` (classical.py): `max(a0/2+b0/2-a1, 0, b1/2-a1/2+a0/4+b0/4-c0/2)`. -/
def p2lb (b0 a0 c0 b1 a1 : ℝ) : ℝ :=
  max (a0 / 2 + b0 / 2 - a1) (max 0 (b1 / 2 - a1 / 2 + a0 / 4 + b0 / 4 - c0 / 2))

/-- Upper bound of the one-dimensional search interval computed in
`p_good_2` (classical.py): `min(1/2-c0/2-a1, b0/2, b1/2-a1/2+a0/4+b0/4)`. -/
def p2ub (b0 a0 c0 b1 a1 : ℝ) : ℝ :=
  min (1 / 2 - c0 / 2 - a1) (min (b0 / 2) (b1 / 2 - a1 / 2 + a0 / 4 + b0 / 4))

/-- The inner objective `proba(x)` of `p_good_2` (classical.py). -/
def p2proba (b0 a0 c0 b1 a1 : ℝ) (x : ℝ) : ℝ :=
  2 * xlx (a0 / 2) + 2 * xlx (x + a1 - a0 / 2 - b0 / 2) + xlx (1 - c0 - 2 * a1 - 2 * x)
    + 2 * xlx (b0 / 2 - x) + 2 * xlx x + 2 * xlx (x + c0 / 2 - b1 / 2 + a1 / 2 - a0 / 4 - b0 / 4)
    + xlx (b1 - a1 + a0 / 2 + b0 / 2 - 2 * x)

/-- Value-level embedding of `p_good_2` from classical.py.  If the computed
interval is empty (lower bound exceeds upper bound) it returns
`p_good(b0,a0,b1,a1) - 1`; otherwise the bounded scalar minimization
`opt.fminbound(proba, lb, ub)` is modelled as the exact infimum of `proba`
over the closed interval, and the result is
`-(that minimum) - 2*f(a1,b1,c1)`. -/
def p_good_2 (b0 a0 c0 b1 a1 c1 : ℝ) : ℝ :=
  if p2lb b0 a0 c0 b1 a1 > p2ub b0 a0 c0 b1 a1 then p_good b0 a0 b1 a1 - 1
  else
    -sInf (Set.image (p2proba b0 a0 c0 b1 a1)
        (Set.Icc (p2lb b0 a0 c0 b1 a1) (p2ub b0 a0 c0 b1 a1)))
      - 2 * f a1 b1 c1

/-- Exception-aware embedding of `p_good_2` from classical.py.  The inner
objective only calls the classical.py `xlx`, which never raises, so the
bounded minimization is modelled by the same value as in `p_good_2`. -/
def p_good_2E (b0 a0 c0 b1 a1 c1 : ℝ) : Option ℝ :=
  if p2lb b0 a0 c0 b1 a1 > p2ub b0 a0 c0 b1 a1 then do
    let v ← p_goodE b0 a0 b1 a1
    pure (v - 1)
  else do
    let w ← fE a1 b1 c1
    pure (-sInf (Set.image (p2proba b0 a0 c0 b1 a1)
        (Set.Icc (p2lb b0 a0 c0 b1 a1) (p2ub b0 a0 c0 b1 a1)))
      - 2 * w)

theorem p_good_2E_eq (b0 a0 c0 b1 a1 c1 : ℝ) :
    p_good_2E b0 a0 c0 b1 a1 c1 = some (p_good_2 b0 a0 c0 b1 a1 c1) := by
  unfold p_good_2E p_good_2
  split_ifs with h
  · simp [p_goodE_eq_cl]
  · simp [fE_eq_cl]

end classicalpy

/-! ## quantum_hgj_asymmetric.py -/

namespace qhgj

/-- Value-level embedding of `xlx` from quantum_hgj_asymmetric.py: returns
`0` for `x ≤ 0` and `x*log(x,2)` otherwise. -/
def xlx (x : ℝ) : ℝ :=
  if x ≤ 0 then 0 else x * Real.logb 2 x

/-- Exception-aware embedding of `xlx` from quantum_hgj_asymmetric.py. -/
def xlxE (x : ℝ) : Option ℝ :=
  if x ≤ 0 then some 0 else (pylog x).map (fun l => x * l)

theorem xlxE_eq_hgj (x : ℝ) : xlxE x = some (xlx x) := by
  by_cases h : x ≤ 0
  · simp [xlxE, xlx, h]
  · have hx : 0 < x := lt_of_not_le h
    simp [xlxE, xlx, h, pylog_pos hx]

/-- Value-level embedding of `h` (Hamming entropy) from
quantum_hgj_asymmetric.py: `-xlx(a) - xlx(1-a)`. -/
def h (a : ℝ) : ℝ :=
  -xlx a - xlx (1 - a)

/-- Exception-aware embedding of `h` from quantum_hgj_asymmetric.py. -/
def hE (a : ℝ) : Option ℝ := do
  let u ← xlxE a
  let v ← xlxE (1 - a)
  pure (-u - v)

theorem hE_eq (a : ℝ) : hE a = some (h a) := by
  simp [hE, h, xlxE_eq_hgj]

/-- Value-level embedding of `filtering` from quantum_hgj_asymmetric.py:
`(1-b)*h(a/(1-b)) - h(a)`.  In Python the division `a/(1-b)` raises
`ZeroDivisionError` when `b = 1`; this value-level version uses the Lean
division convention `a/0 = 0` there, and `filteringE` records the
exception faithfully. -/
def filtering (a b : ℝ) : ℝ :=
  (1 - b) * h (a / (1 - b)) - h a

/-- Exception-aware embedding of `filtering` from
quantum_hgj_asymmetric.py: the division `a/(1-b)` is performed first and
raises `ZeroDivisionError` exactly when `b = 1`. -/
def filteringE (a b : ℝ) : Option ℝ := do
  let q ← pydiv a (1 - b)
  let u ← hE q
  let v ← hE a
  pure ((1 - b) * u - v)

theorem filteringE_eq {b : ℝ} (a : ℝ) (hb : b ≠ 1) :
    filteringE a b = some (filtering a b) := by
  have hb0 : 1 - b ≠ 0 := sub_ne_zero.mpr (Ne.symm hb)
  simp [filteringE, filtering, pydiv_ne hb0, hE_eq]

theorem filteringE_at_one (a : ℝ) : filteringE a 1 = none := by
  simp [filteringE, pydiv]

/-- Flat parameter vector of the asymmetric-HGJ formulation (17 real
fields, as passed by the solver). -/
abbrev Vec := Fin 17 → ℝ

/-- Embedding of the named tuple `set_qhgj` of quantum_hgj_asymmetric.py:
ordered fields `l30 l31 l32 l34 l20 l21 l22 l10 l11 a b c r c20 c21 c1 c0`. -/
structure set_qhgj where
  l30 : ℝ
  l31 : ℝ
  l32 : ℝ
  l34 : ℝ
  l20 : ℝ
  l21 : ℝ
  l22 : ℝ
  l10 : ℝ
  l11 : ℝ
  a : ℝ
  b : ℝ
  c : ℝ
  r : ℝ
  c20 : ℝ
  c21 : ℝ
  c1 : ℝ
  c0 : ℝ

/-- Decoding a flat vector into the named tuple, in field order
(`set_qhgj(*x)` in the source). -/
def decode (v : Vec) : set_qhgj :=
  ⟨v 0, v 1, v 2, v 3, v 4, v 5, v 6, v 7, v 8, v 9, v 10, v 11, v 12, v 13, v 14, v 15, v 16⟩

/-- Embedding of `qhgj(f) = wrap(f, set_qhgj)` from the source: a
constraint or objective written against the named tuple, applied to the
flat vector the solver manipulates. -/
def wrap (f : set_qhgj → ℝ) : Vec → ℝ :=
  fun v => f (decode v)

/-- Constraint kind: the `type` field of a scipy constraint dictionary. -/
inductive CKind
  | eq
  | ineq
deriving DecidableEq

/-- A constraint dictionary entry: its kind and its function over the flat
parameter vector. -/
structure Constraint where
  kind : CKind
  fn : Vec → ℝ

/-- Embedding of the module-level base constraint list `constraints_hgj`
of quantum_hgj_asymmetric.py, in source order. -/
def constraints_hgj : List Constraint := [
  ⟨.eq, wrap (fun x => x.a * 2 + x.b + x.c - 0.5)⟩,
  ⟨.ineq, wrap (fun x => x.c1 - x.c21)⟩,
  ⟨.ineq, wrap (fun x => x.c1 - x.c20)⟩,
  ⟨.ineq, wrap (fun x => x.c0 - x.c1)⟩,
  ⟨.ineq, wrap (fun x => h x.c * (1 - x.r) - x.l30)⟩,
  ⟨.ineq, wrap (fun x => h x.c * x.r - x.l31)⟩,
  ⟨.ineq, wrap (fun x => h x.b / 2 - x.l32)⟩,
  ⟨.ineq, wrap (fun x => h x.a / 2 - x.l34)⟩,
  ⟨.ineq, wrap (fun x => h x.c - x.c20 - x.l20)⟩,
  ⟨.ineq, wrap (fun x => h x.b - x.c20 - x.l21)⟩,
  ⟨.ineq, wrap (fun x => h x.a - x.c21 - x.l22)⟩,
  ⟨.ineq, wrap (fun x => h (x.c + x.b) - x.c1 - x.l10)⟩,
  ⟨.ineq, wrap (fun x => h (2 * x.a) - x.c1 - x.l11)⟩,
  ⟨.eq, wrap (fun x => x.l30 + x.l31 - x.c20 - x.l20)⟩,
  ⟨.eq, wrap (fun x => x.l32 * 2 - x.c20 - x.l21)⟩,
  ⟨.eq, wrap (fun x => x.l34 * 2 - x.c21 - x.l22)⟩,
  ⟨.eq, wrap (fun x => x.l20 + x.l21 - x.c1 + x.c20 + filtering x.b x.c - x.l10)⟩,
  ⟨.eq, wrap (fun x => x.l22 * 2 - x.c1 + x.c21 + filtering x.a x.a - x.l11)⟩,
  ⟨.eq, wrap (fun x => x.l10 + x.l11 - (x.c0 - x.c1) + filtering (x.b + x.c) (2 * x.a))⟩ ]

/-- Embedding of `memory_hgj` from quantum_hgj_asymmetric.py:
`max(x.l31, x.l32, x.l34, x.l21, x.l22, x.l11)` over the decoded vector. -/
def memory_hgj (v : Vec) : ℝ :=
  let x := decode v
  max x.l31 (max x.l32 (max x.l34 (max x.l21 (max x.l22 x.l11))))

/-- Embedding of `classical_time_hgj` from quantum_hgj_asymmetric.py. -/
def classical_time_hgj (v : Vec) : ℝ :=
  let x := decode v
  (1 - x.c0) + max x.l31 (max x.l32 (max x.l34 (max x.l21 (max x.l22
    (max (x.l22 * 2 - x.c1 + x.c21)
      (x.l30 + max (x.l31 - x.c20) 0 + max (x.l21 - x.c1 + x.c20) 0))))))

/-- Embedding of `quantum_time_hgj_first` from quantum_hgj_asymmetric.py. -/
def quantum_time_hgj_first (v : Vec) : ℝ :=
  let x := decode v
  (1 - x.c0) + max x.l31 (max x.l32 (max x.l34 (max x.l21 (max x.l22
    (max (x.l22 * 2 - x.c1 + x.c21)
      (0.5 * (x.l10 - filtering x.b x.c + max (x.c20 - x.l31) 0
        + max (x.c1 - x.c20 - x.l21) 0)))))))

/-- Embedding of `quantum_time_hgj_second` from quantum_hgj_asymmetric.py. -/
def quantum_time_hgj_second (v : Vec) : ℝ :=
  let x := decode v
  (1 - x.c0) + max x.l31 (max x.l32 (max x.l34 (max x.l21 (max x.l22
    (max (x.l22 * 2 - x.c1 + x.c21 + filtering x.a x.a * 0.5)
      (0.5 * (x.l10 - filtering x.b x.c + max (x.c20 - x.l31) 0
        + max (x.c1 - x.c20 - x.l21) 0)))))))

/-- The list of valid flags accepted by `optimize_hgj`. -/
def validFlags : List String := ["classical", "quantum1", "quantum2", "moremem"]

/-- The function of the memory-budget constraint appended by `optimize_hgj`
when `mcons` is given: for flag `moremem` it constrains only the
quantum-addressable lists `l31, l21, l11`; for any other flag it constrains
the maximum over `l31, l32, l21, l22, l34, l11, l22` (the argument list of
the source `max`, with `l22` listed twice). -/
def memFn (flag : String) (m : ℝ) : Vec → ℝ :=
  if flag = "moremem" then
    wrap (fun x => m - max x.l31 (max x.l21 x.l11))
  else
    wrap (fun x => m - max x.l31 (max x.l32 (max x.l21 (max x.l22
      (max x.l34 (max x.l11 x.l22))))))

/-- The equality constraint `x.c0 - 1` appended by every `optimize_hgj`
call (fixing the final modular constraint to 1). -/
def c0Constraint : Constraint :=
  ⟨.eq, wrap (fun x => x.c0 - 1)⟩

/-! Python list objects are mutable and aliased by reference; to make the
frame property of `optimize_hgj` (no mutation of the module-level
`constraints_hgj`) a real statement we model the relevant heap: a store of
list objects indexed by references.  `constraints_hgj[:]` allocates a fresh
object holding the same entries; `append` mutates the object behind a
reference in place. -/

/-- Heap of Python list-of-constraint objects, indexed by allocation order. -/
abbrev Heap := List (List Constraint)

/-- Dereference a list object. -/
def readL (hp : Heap) (r : Nat) : List Constraint :=
  hp.getD r []

/-- Allocate a fresh list object (models the slice copy `l[:]`, which
builds a new list with the same entries). -/
def allocL (hp : Heap) (l : List Constraint) : Heap × Nat :=
  (hp ++ [l], hp.length)

/-- In-place `append` on the object behind reference `r`. -/
def appendL (hp : Heap) (r : Nat) (c : Constraint) : Heap :=
  hp.set r (readL hp r ++ [c])

/-- Reference of the module-level `constraints_hgj`. -/
def hgjRef : Nat := 0

/-- Initial heap: the module-level `constraints_hgj` is the only list
object alive when `optimize_hgj` is entered. -/
def initHeap : Heap := [constraints_hgj]

/-- The constraint-list construction performed by `optimize_hgj`
(lines `mycons = constraints_hgj[:]`, `mycons.append({eq: c0 - 1})`, and,
when `mcons` is not None, the append of the memory constraint selected by
the flag).  Returns the final heap and the reference of `mycons`. -/
def buildMycons (hp : Heap) (flag : String) (mcons : Option ℝ) : Heap × Nat :=
  let p := allocL hp (readL hp hgjRef)
  let h2 := appendL p.1 p.2 c0Constraint
  match mcons with
  | none => (h2, p.2)
  | some m => (appendL h2 p.2 ⟨.ineq, memFn flag m⟩, p.2)

/-- The data handed to the external solver `opt.minimize`: objective,
constraint list, initial guess `[0.]*17` and box bounds `[(0,1)]*17`. -/
structure SolverCall where
  objective : Vec → ℝ
  constraints : List Constraint
  start : Vec
  lo : Vec
  hi : Vec

/-- Embedding of `optimize_hgj` from quantum_hgj_asymmetric.py up to the
solver invocation: an invalid flag raises `ValueError` (modelled as
`Except.error`) before anything else; otherwise the objective is selected
from the flag, the per-call constraint list is built, and the solver is
invoked on the resulting data (modelled as `Except.ok`). -/
def optimize_hgj (flag : String) (mcons : Option ℝ) : Except String SolverCall :=
  if flag ∉ validFlags then
    Except.error ("Invalid flag: " ++ flag)
  else
    let time : Vec → ℝ :=
      if flag = "classical" then classical_time_hgj
      else if flag = "quantum2" then quantum_time_hgj_second
      else quantum_time_hgj_first
    let bm := buildMycons initHeap flag mcons
    Except.ok ⟨time, readL bm.1 bm.2, fun _ => 0, fun _ => 0, fun _ => 1⟩

end qhgj

/-! ## Parameter schemas of the five variants -/

namespace classicalpy

/-- Field list of the named tuple `set_classical` of classical.py. -/
def set_classical_fields : List String :=
  ["p0", "p1", "p2", "l1", "l2", "l3", "l4", "c1", "c2", "c3",
   "alpha1", "alpha2", "alpha3", "gamma1", "gamma2", "gamma3"]

end classicalpy

namespace bcjpy

/-- Field list of the named tuple `set_bcj` of classical_bcj.py. -/
def set_bcj_fields : List String :=
  ["p0", "p1", "p2", "l1", "l2", "l3", "l4", "c1", "c2", "c3",
   "alpha1", "alpha2", "alpha3"]

end bcjpy

namespace qhgj

/-- Field list of the named tuple `set_qhgj` of quantum_hgj_asymmetric.py. -/
def set_qhgj_fields : List String :=
  ["l30", "l31", "l32", "l34", "l20", "l21", "l22", "l10", "l11",
   "a", "b", "c", "r", "c20", "c21", "c1", "c0"]

end qhgj

namespace qw

/-- Field list of the named tuple `set_quantum` of quantum_qw.py. -/
def set_quantum_fields : List String :=
  ["p0", "p1", "p2", "p3", "l0", "l1", "l2", "l3", "l4", "delta",
   "c1", "c2", "c3", "c4", "alpha1", "alpha2", "alpha3", "alpha4", "gamma1"]

end qw

namespace qwnh

/-- Field list of the named tuple `set_quantum` of quantum_qw_no_heuristic.py. -/
def set_quantum_fields : List String :=
  ["p0", "p1", "p2", "l0", "l1", "l2", "l3", "l4",
   "c1", "c2", "c3", "alpha1", "alpha2", "alpha3", "gamma1"]

end qwnh

/-! ## Named flag strings used in witnesses -/

/-- The flag string selecting the classical-objective mode. -/
def flagClassical : String := "classical"

/-- The flag string selecting the first quantum mode. -/
def flagQuantum1 : String := "quantum1"

/-- A flag string that is not one of the four valid modes. -/
def flagBogus : String := "bogus"

/-! ## Claim theorems -/

/-- C2: for every real x the formulation-module `xlx` (classical.py and
quantum_hgj_asymmetric.py) returns 0 for x ≤ 0 and x*log2(x) for x > 0,
while the shared-macros `xlx` returns -100*x for x ≤ 0 and x*log2(x) for
x > 0; the two boundary policies are distinct (they disagree at x = -1). -/
theorem c2_xlx_policies (x : ℝ) :
    (x ≤ 0 → classicalpy.xlx x = 0 ∧ qhgj.xlx x = 0 ∧ macros.xlx x = -100 * x) ∧
    (0 < x → classicalpy.xlx x = x * Real.logb 2 x ∧ qhgj.xlx x = x * Real.logb 2 x ∧
      macros.xlx x = x * Real.logb 2 x) ∧
    macros.xlx (-1) ≠ classicalpy.xlx (-1) ∧
    macros.xlx (-1) ≠ qhgj.xlx (-1) := by
  refine ⟨fun h0 => ?_, fun h0 => ?_, ?_, ?_⟩
  · simp [classicalpy.xlx, qhgj.xlx, macros.xlx, h0]
  · simp [classicalpy.xlx, qhgj.xlx, macros.xlx, not_le.mpr h0]
  · simp [classicalpy.xlx, macros.xlx]
  · simp [qhgj.xlx, macros.xlx]

/-- C2 witness: the theorem instantiated at x = -1: the formulation policy
returns 0 there while the macros policy returns 100. -/
theorem c2_xlx_policies_witness :
    classicalpy.xlx (-1) = 0 ∧ macros.xlx (-1) = -100 * (-1) := by
  have h := c2_xlx_policies (-1)
  exact ⟨(h.1 (by norm_num)).1, (h.1 (by norm_num)).2.2⟩

/-- C3: the classical.py `f` evaluates by the source fallback ladder in
order: a ≤ 0 gives g(b,c); else b ≤ 0 gives g(a,c); else c ≤ 0 gives
g(a,b); else a+b+c ≥ 1 gives min(g(b,c), g(a,c), g(a,b)); otherwise the
full 4-way entropy (whose logarithms are all defined in exact real
arithmetic, so the try/except branch returning 0 never fires, as the
agreement of `fE` with `f` in the last conjunct records).  In particular
f(0,b,c) = g(b,c) whenever b + c < 1. -/
theorem c3_f_ladder (a b c : ℝ) :
    (a ≤ 0 → classicalpy.f a b c = classicalpy.g b c) ∧
    (0 < a → b ≤ 0 → classicalpy.f a b c = classicalpy.g a c) ∧
    (0 < a → 0 < b → c ≤ 0 → classicalpy.f a b c = classicalpy.g a b) ∧
    (0 < a → 0 < b → 0 < c → 1 ≤ a + b + c →
      classicalpy.f a b c =
        min (classicalpy.g b c) (min (classicalpy.g a c) (classicalpy.g a b))) ∧
    (0 < a → 0 < b → 0 < c → a + b + c < 1 →
      classicalpy.f a b c =
        -a * Real.logb 2 a - b * Real.logb 2 b - c * Real.logb 2 c
          - (1 - a - b - c) * Real.logb 2 (1 - a - b - c)) ∧
    (b + c < 1 → classicalpy.f 0 b c = classicalpy.g b c) ∧
    classicalpy.fE a b c = some (classicalpy.f a b c) := by
  refine ⟨fun h1 => ?_, fun h1 h2 => ?_, fun h1 h2 h3 => ?_,
    fun h1 h2 h3 h4 => ?_, fun h1 h2 h3 h4 => ?_, fun _ => ?_, classicalpy.fE_eq_cl a b c⟩
  · simp [classicalpy.f, h1]
  · simp [classicalpy.f, not_le.mpr h1, h2]
  · simp [classicalpy.f, not_le.mpr h1, not_le.mpr h2, h3]
  · simp [classicalpy.f, not_le.mpr h1, not_le.mpr h2, not_le.mpr h3, ge_iff_le, h4]
  · simp [classicalpy.f, not_le.mpr h1, not_le.mpr h2, not_le.mpr h3, ge_iff_le,
      not_le.mpr h4]
  · simp [classicalpy.f]

/-- C3 witness: at (a,b,c) = (0, 1/4, 1/4) the first rung of the ladder
fires and f reduces to g of the remaining two masses. -/
theorem c3_f_ladder_witness :
    classicalpy.f 0 (1/4) (1/4) = classicalpy.g (1/4) (1/4) :=
  (c3_f_ladder 0 (1/4) (1/4)).2.2.2.2.2.1 (by norm_num)

/-- C4: whenever the computed one-dimensional search interval of
`p_good_2` (classical.py) is empty (lower bound strictly exceeds upper
bound), the function returns `p_good(b0,a0,b1,a1) - 1`, which is strictly
less than `p_good(b0,a0,b1,a1)`, instead of failing. -/
theorem c4_p_good_2_empty_interval (b0 a0 c0 b1 a1 c1 : ℝ)
    (hlt : classicalpy.p2ub b0 a0 c0 b1 a1 < classicalpy.p2lb b0 a0 c0 b1 a1) :
    classicalpy.p_good_2 b0 a0 c0 b1 a1 c1 = classicalpy.p_good b0 a0 b1 a1 - 1 ∧
    classicalpy.p_good_2 b0 a0 c0 b1 a1 c1 < classicalpy.p_good b0 a0 b1 a1 := by
  have e : classicalpy.p_good_2 b0 a0 c0 b1 a1 c1 = classicalpy.p_good b0 a0 b1 a1 - 1 := by
    simp [classicalpy.p_good_2, gt_iff_lt, hlt]
  exact ⟨e, by rw [e]; linarith⟩

/-- C4 witness: at (b0,a0,c0,b1,a1,c1) = (0,0,0,0,1,0) the interval is
empty (lower bound 0, upper bound -1/2) and the dominated sentinel is
returned. -/
theorem c4_p_good_2_empty_interval_witness :
    classicalpy.p_good_2 0 0 0 0 1 0 = classicalpy.p_good 0 0 0 1 - 1 ∧
    classicalpy.p_good_2 0 0 0 0 1 0 < classicalpy.p_good 0 0 0 1 :=
  c4_p_good_2_empty_interval 0 0 0 0 1 0 (by
    simp [classicalpy.p2lb, classicalpy.p2ub, max_def, min_def]
    norm_num)

/-- C10: both the macros.py and the classical.py `p_good` are invariant
under simultaneously swapping the two counts in the child composition
(a0,b0) and in the parent composition (a1,b1). -/
theorem c10_p_good_swap_symmetry :
    (∀ a0 b0 a1 b1 : ℝ, macros.p_good a0 b0 a1 b1 = macros.p_good b0 a0 b1 a1) ∧
    (∀ a0 b0 a1 b1 : ℝ, classicalpy.p_good a0 b0 a1 b1 = classicalpy.p_good b0 a0 b1 a1) := by
  constructor
  · intro a0 b0 a1 b1
    simp only [macros.p_good, macros.g]
    rw [show (1 - a1 - b1 - a0 / 2 - b0 / 2 : ℝ) = 1 - b1 - a1 - b0 / 2 - a0 / 2 from by ring,
      show (1 - a1 - b1 : ℝ) = 1 - b1 - a1 from by ring]
    ring
  · intro a0 b0 a1 b1
    simp only [classicalpy.p_good, classicalpy.g]
    rw [show (1 - a1 - b1 - a0 / 2 - b0 / 2 : ℝ) = 1 - b1 - a1 - b0 / 2 - a0 / 2 from by ring,
      show (1 - a1 - b1 : ℝ) = 1 - b1 - a1 from by ring]
    ring

/-- Helper: the maximum over the seven-entry argument list of the appended
memory constraint (with `l22` listed twice) equals the maximum over the six
list-size fields in the order used by `memory_hgj`. -/
theorem max_mem_args_eq (p q r s t u : ℝ) :
    max p (max q (max r (max s (max t (max u s))))) =
      max p (max q (max t (max r (max s u)))) := by
  apply le_antisymm
  · exact max_le (by simp [le_max_iff]) (max_le (by simp [le_max_iff])
      (max_le (by simp [le_max_iff]) (max_le (by simp [le_max_iff])
        (max_le (by simp [le_max_iff]) (max_le (by simp [le_max_iff])
          (by simp [le_max_iff]))))))
  · exact max_le (by simp [le_max_iff]) (max_le (by simp [le_max_iff])
      (max_le (by simp [le_max_iff]) (max_le (by simp [le_max_iff])
        (max_le (by simp [le_max_iff]) (by simp [le_max_iff])))))

/-- C5: for every valid flag and every mcons, a call to `optimize_hgj`
leaves the module-level base list `constraints_hgj` unchanged: the slice
copy `constraints_hgj[:]` allocates a fresh list object, and the c0-fixing
and memory-budget constraints are appended only to that per-call copy,
whose reference differs from the base reference. -/
theorem c5_base_constraints_unchanged (flag : String) (_hf : flag ∈ qhgj.validFlags)
    (mcons : Option ℝ) :
    qhgj.readL (qhgj.buildMycons qhgj.initHeap flag mcons).1 qhgj.hgjRef
        = qhgj.constraints_hgj ∧
    (qhgj.buildMycons qhgj.initHeap flag mcons).2 ≠ qhgj.hgjRef := by
  cases mcons <;> exact ⟨rfl, Nat.one_ne_zero⟩

/-- C5 witness: the frame property at flag classical with memory budget
1/10. -/
theorem c5_base_constraints_unchanged_witness :
    qhgj.readL (qhgj.buildMycons qhgj.initHeap flagClassical (some (1/10))).1 qhgj.hgjRef
        = qhgj.constraints_hgj ∧
    (qhgj.buildMycons qhgj.initHeap flagClassical (some (1/10))).2 ≠ qhgj.hgjRef :=
  c5_base_constraints_unchanged flagClassical (by decide) (some (1/10))

/-- C6: when `optimize_hgj` is called with a memory budget, the appended
inequality evaluates `mcons - max(l31, l21, l11)` for flag moremem and
`mcons - memory_hgj(x)` (the full memory maximum) for every other valid
flag; and the per-call constraint list is the base list plus the c0
constraint, plus the memory constraint exactly when mcons is given. -/
theorem c6_memory_constraint (flag : String) (_hf : flag ∈ qhgj.validFlags)
    (m : ℝ) (v : qhgj.Vec) :
    (flag = "moremem" → qhgj.memFn flag m v =
      m - max (qhgj.decode v).l31 (max (qhgj.decode v).l21 (qhgj.decode v).l11)) ∧
    (flag ≠ "moremem" → qhgj.memFn flag m v = m - qhgj.memory_hgj v) ∧
    qhgj.readL (qhgj.buildMycons qhgj.initHeap flag none).1
        (qhgj.buildMycons qhgj.initHeap flag none).2
      = qhgj.constraints_hgj ++ [qhgj.c0Constraint] ∧
    qhgj.readL (qhgj.buildMycons qhgj.initHeap flag (some m)).1
        (qhgj.buildMycons qhgj.initHeap flag (some m)).2
      = qhgj.constraints_hgj ++ [qhgj.c0Constraint, ⟨.ineq, qhgj.memFn flag m⟩] := by
  refine ⟨fun hm => ?_, fun hm => ?_, rfl, rfl⟩
  · simp [qhgj.memFn, hm, qhgj.wrap]
  · simp only [qhgj.memFn, hm, if_false, qhgj.wrap, qhgj.memory_hgj]
    rw [max_mem_args_eq]

/-- C6 witness: at flag quantum1, budget 1/10 and the zero vector, the
appended constraint function agrees with the full memory maximum. -/
theorem c6_memory_constraint_witness :
    (flagQuantum1 = "moremem" → qhgj.memFn flagQuantum1 (1/10) (fun _ => 0) =
      (1/10 : ℝ) - max (qhgj.decode (fun _ => 0)).l31
        (max (qhgj.decode (fun _ => 0)).l21 (qhgj.decode (fun _ => 0)).l11)) ∧
    (flagQuantum1 ≠ "moremem" → qhgj.memFn flagQuantum1 (1/10) (fun _ => 0) =
      (1/10 : ℝ) - qhgj.memory_hgj (fun _ => 0)) ∧
    qhgj.readL (qhgj.buildMycons qhgj.initHeap flagQuantum1 none).1
        (qhgj.buildMycons qhgj.initHeap flagQuantum1 none).2
      = qhgj.constraints_hgj ++ [qhgj.c0Constraint] ∧
    qhgj.readL (qhgj.buildMycons qhgj.initHeap flagQuantum1 (some (1/10))).1
        (qhgj.buildMycons qhgj.initHeap flagQuantum1 (some (1/10))).2
      = qhgj.constraints_hgj ++ [qhgj.c0Constraint, ⟨.ineq, qhgj.memFn flagQuantum1 (1/10)⟩] :=
  c6_memory_constraint flagQuantum1 (by decide) (1/10) (fun _ => 0)

/-- C7: `optimize_hgj` raises ValueError (an invalid-input error) before
any solver invocation exactly when its flag is not one of the four valid
flags; for a valid flag no error is raised and the solver is invoked on
the built data. -/
theorem c7_invalid_flag (flag : String) (mcons : Option ℝ) :
    (flag ∉ qhgj.validFlags →
      qhgj.optimize_hgj flag mcons = Except.error ("Invalid flag: " ++ flag)) ∧
    (flag ∈ qhgj.validFlags →
      ∃ s : qhgj.SolverCall, qhgj.optimize_hgj flag mcons = Except.ok s) := by
  by_cases hf : flag ∈ qhgj.validFlags
  · refine ⟨fun hc => absurd hf hc, fun _ => ?_⟩
    unfold qhgj.optimize_hgj
    rw [if_neg (not_not_intro hf)]
    exact ⟨_, rfl⟩
  · exact ⟨fun _ => by simp [qhgj.optimize_hgj, hf], fun hc => absurd hc hf⟩

/-- C7 witness: an unknown flag produces the invalid-input error, while
the valid flag classical reaches the solver. -/
theorem c7_invalid_flag_witness :
    qhgj.optimize_hgj flagBogus none = Except.error ("Invalid flag: " ++ flagBogus) ∧
    ∃ s : qhgj.SolverCall, qhgj.optimize_hgj flagClassical none = Except.ok s :=
  ⟨(c7_invalid_flag flagBogus none).1 (by decide),
   (c7_invalid_flag flagClassical none).2 (by decide)⟩

/-- C9 counterexample: the claim that every schema has at most 17 fields
fails on the quantum-walk heuristic schema of quantum_qw.py, whose named
tuple has 19 fields. -/
theorem c9_schema_sizes_counterexample :
    ¬ (13 ≤ qw.set_quantum_fields.length ∧ qw.set_quantum_fields.length ≤ 17) := by
  decide

/-- C9 amended: the five variant parameter schemas are pairwise distinct
ordered field lists, and their field counts all lie in the range 13 to 19
(classical 16, BCJ 13, asymmetric HGJ 17, quantum-walk heuristic 19,
quantum-walk non-heuristic 15). -/
theorem c9_schema_sizes_amended :
    classicalpy.set_classical_fields.length = 16 ∧
    bcjpy.set_bcj_fields.length = 13 ∧
    qhgj.set_qhgj_fields.length = 17 ∧
    qw.set_quantum_fields.length = 19 ∧
    qwnh.set_quantum_fields.length = 15 ∧
    (∀ n ∈ [classicalpy.set_classical_fields.length, bcjpy.set_bcj_fields.length,
      qhgj.set_qhgj_fields.length, qw.set_quantum_fields.length,
      qwnh.set_quantum_fields.length], 13 ≤ n ∧ n ≤ 19) ∧
    classicalpy.set_classical_fields ≠ bcjpy.set_bcj_fields ∧
    classicalpy.set_classical_fields ≠ qhgj.set_qhgj_fields ∧
    classicalpy.set_classical_fields ≠ qw.set_quantum_fields ∧
    classicalpy.set_classical_fields ≠ qwnh.set_quantum_fields ∧
    bcjpy.set_bcj_fields ≠ qhgj.set_qhgj_fields ∧
    bcjpy.set_bcj_fields ≠ qw.set_quantum_fields ∧
    bcjpy.set_bcj_fields ≠ qwnh.set_quantum_fields ∧
    qhgj.set_qhgj_fields ≠ qw.set_quantum_fields ∧
    qhgj.set_qhgj_fields ≠ qwnh.set_quantum_fields ∧
    qw.set_quantum_fields ≠ qwnh.set_quantum_fields := by
  decide

/-- C1 counterexample: the library is not total at the boundary value
b = 1 of `filtering`: the division `a/(1-b)` in
quantum_hgj_asymmetric.py raises ZeroDivisionError there (modelled by
`none`), already at the concrete input (a, b) = (1/2, 1). -/
theorem c1_totality_counterexample : qhgj.filteringE (1/2) 1 = none :=
  qhgj.filteringE_at_one (1/2)

/-- C1 amended: every function of the entropy/probability library returns
a real number and never raises, for all real arguments (including the
boundary value 1 in any position), with the single exception of
`filtering(a,b)` at b = 1: `filtering` is total for every second argument
w ≠ 1 and raises ZeroDivisionError exactly at 1.  The variables
x, a, b, c, d, e, u are unconstrained reals; only the second argument w
of `filtering` carries the hypothesis w ≠ 1. -/
theorem c1_totality_amended (x a b c d e u w : ℝ) (hw : w ≠ 1) :
    (macros.xlxE x).isSome ∧
    (classicalpy.xlxE x).isSome ∧
    (qhgj.xlxE x).isSome ∧
    (qhgj.hE x).isSome ∧
    (macros.gE a b).isSome ∧
    (classicalpy.gE a b).isSome ∧
    (macros.fE a b c).isSome ∧
    (classicalpy.fE a b c).isSome ∧
    (macros.p_goodE x a b c).isSome ∧
    (classicalpy.p_goodE x a b c).isSome ∧
    (classicalpy.p_good_2E a b c d e u).isSome ∧
    (macros.p_good_2_upE a b c d e u).isSome ∧
    (macros.p_good_2_downE a b c d e u).isSome ∧
    (qhgj.filteringE a w).isSome ∧
    qhgj.filteringE x 1 = none := by
  refine ⟨?_, ?_, ?_, ?_, ?_, ?_, ?_, ?_, ?_, ?_, ?_, ?_, ?_, ?_, qhgj.filteringE_at_one x⟩
  · simp [macros.xlxE_eq]
  · simp [classicalpy.xlxE_eq_cl]
  · simp [qhgj.xlxE_eq_hgj]
  · simp [qhgj.hE_eq]
  · simp [macros.gE_eq]
  · simp [classicalpy.gE_eq_cl]
  · simp [macros.fE_eq]
  · simp [classicalpy.fE_eq_cl]
  · simp [macros.p_goodE_eq]
  · simp [classicalpy.p_goodE_eq_cl]
  · simp [classicalpy.p_good_2E_eq]
  · simp [macros.p_good_2_upE_eq]
  · simp [macros.p_good_2_downE_eq]
  · simp [qhgj.filteringE_eq a hw]

/-- C1 amended witness: the totality statement instantiated with every
unconstrained argument at the boundary value 1 (so each non-filtering
function is exercised exactly at the value at which `filtering` raises),
and the filtering second argument at w = 1/2 ≠ 1. -/
theorem c1_totality_amended_witness :
    (macros.xlxE 1).isSome ∧
    (classicalpy.xlxE 1).isSome ∧
    (qhgj.xlxE 1).isSome ∧
    (qhgj.hE 1).isSome ∧
    (macros.gE 1 1).isSome ∧
    (classicalpy.gE 1 1).isSome ∧
    (macros.fE 1 1 1).isSome ∧
    (classicalpy.fE 1 1 1).isSome ∧
    (macros.p_goodE 1 1 1 1).isSome ∧
    (classicalpy.p_goodE 1 1 1 1).isSome ∧
    (classicalpy.p_good_2E 1 1 1 1 1 1).isSome ∧
    (macros.p_good_2_upE 1 1 1 1 1 1).isSome ∧
    (macros.p_good_2_downE 1 1 1 1 1 1).isSome ∧
    (qhgj.filteringE 1 (1/2)).isSome ∧
    qhgj.filteringE 1 1 = none :=
  c1_totality_amended 1 1 1 1 1 1 1 (1/2) (by norm_num)
